import Mathlib

/-!
Verification of the onyx compiler front end (lexer/parser/diagnostics).

Shallow embedding of the authoritative snapshot: `src/report.rs`,
`src/lexer/token.rs` and `src/parser/mod.rs`.  Modules that the parser
depends on but whose sources are absent from the repository snapshot
(`span.rs`, `parser/ast.rs`, `bigint.rs`, the lexer proper and the
`progress::LogHandler`) are modelled from the specification; each such
definition is marked `Modelled from the spec:` in its doc comment.

Rust panics (out-of-bounds indexing in `current()`, `unreachable!()`,
failed `assert!`, `Option::unwrap` on `None`) are modelled as an explicit
`panic` outcome of the embedded computation; fallible parser productions
return an error outcome carrying the `Report` value built at the failure
site, exactly as the Rust `Result<T, Box<Report>>` does.  Loops and
recursive descent are embedded with an explicit fuel parameter; `oof`
(out of fuel) is distinct from every real outcome.
-/

namespace Onyx

/-- Modelled from the spec: `span.rs` is not in the snapshot.  A `Span` is a
half-open source range (start and end offsets).  The file identifier and
line number play no role in any claim and are omitted; `stop` stands for
the Rust field `end`, which is a Lean keyword. -/
structure Span where
  start : Nat
  stop  : Nat
  deriving DecidableEq, Repr

/-- Modelled from the spec: two spans combine ("extend") into the minimal
span covering both. -/
def Span.extend (a b : Span) : Span :=
  ⟨min a.start b.start, max a.stop b.stop⟩

/-- Modelled from the spec: per-character highlight marker used when
rendering a report's source line. -/
inductive HighlightKind where
  | Empty : HighlightKind
  | Caret : HighlightKind
  | Ghost : Char → HighlightKind
  deriving DecidableEq, Repr

/-- Modelled from the spec: the highlight mask of a bare span marks every
character the span covers with a caret. -/
def Span.mask (s : Span) : List HighlightKind :=
  List.replicate (s.stop - s.start) .Caret

/-- Modelled from the spec: `span::combine` merges two masks elementwise
with deterministic precedence — a non-`Empty` mark is never overwritten
by `Empty`; the longer tail survives. -/
def maskCombine : List HighlightKind → List HighlightKind → List HighlightKind
  | [], ys => ys
  | xs, [] => xs
  | x :: xs, y :: ys => (if x = HighlightKind.Empty then y else x) :: maskCombine xs ys

/-- Severity levels, from `src/report.rs` lines 12-20 (`enum Level`), in
declaration order `Fatal, Error, Warn, Note, Silent`. -/
inductive Level where
  | Fatal  : Level
  | Error  : Level
  | Warn   : Level
  | Note   : Level
  | Silent : Level
  deriving DecidableEq, Repr

/-- Discriminant of `Level` as assigned by `#[repr(u8)]` declaration order. -/
def Level.toNat : Level → Nat
  | .Fatal  => 0
  | .Error  => 1
  | .Warn   => 2
  | .Note   => 3
  | .Silent => 4

/-- Rust `derive(PartialOrd)` on a fieldless enum compares discriminants. -/
instance : LT Level := ⟨fun a b => a.toNat < b.toNat⟩

instance : LE Level := ⟨fun a b => a.toNat ≤ b.toNat⟩

instance (a b : Level) : Decidable (a < b) :=
  inferInstanceAs (Decidable (a.toNat < b.toNat))

instance (a b : Level) : Decidable (a ≤ b) :=
  inferInstanceAs (Decidable (a.toNat ≤ b.toNat))

/-- Report kinds, from `src/report.rs` lines 22-55 (`enum ReportKind`), in
declaration order.  `S_NOTE`, `S_WARNING`, `S_ERROR`, `S_FATAL` stand for
the Rust sentinel variants `_NOTE_`, `_WARNING_`, `_ERROR_`, `_FATAL_`.
The parser (`src/parser/mod.rs`) also raises `ReportKind::InvalidNumber`,
which is absent from the snapshot's `report.rs`; Modelled from the spec:
"`InvalidNumber` (literal text failed to parse as an integer or
bit-width)" is a parser kind, inserted in the parser group (any position
strictly between `_ERROR_` and `_FATAL_` yields the same severity). -/
inductive ReportKind where
  | S_NOTE                       : ReportKind
  | S_WARNING                    : ReportKind
  | S_ERROR                      : ReportKind
  | ArgumentParserError          : ReportKind
  | UnexpectedCharacter          : ReportKind
  | UnterminatedMultilineComment : ReportKind
  | UnterminatedStringLiteral    : ReportKind
  | UnterminatedCharLiteral      : ReportKind
  | EmptyCharLiteral             : ReportKind
  | UndefinedMacro               : ReportKind
  | InvalidTag                   : ReportKind
  | ExceededRecursionLimit       : ReportKind
  | SelfReferentialMacro         : ReportKind
  | UnexpectedToken              : ReportKind
  | UnexpectedEOF                : ReportKind
  | InvalidEscapeSequence        : ReportKind
  | DuplicateAttribute           : ReportKind
  | RegisterWithinHeap           : ReportKind
  | MismatchedDelimeter          : ReportKind
  | InvalidNumber                : ReportKind
  | IOError                      : ReportKind
  | SyntaxError                  : ReportKind
  | S_FATAL                      : ReportKind
  deriving DecidableEq, Repr

/-- Discriminant of `ReportKind` in declaration order. -/
def ReportKind.toNat : ReportKind → Nat
  | .S_NOTE                       => 0
  | .S_WARNING                    => 1
  | .S_ERROR                      => 2
  | .ArgumentParserError          => 3
  | .UnexpectedCharacter          => 4
  | .UnterminatedMultilineComment => 5
  | .UnterminatedStringLiteral    => 6
  | .UnterminatedCharLiteral      => 7
  | .EmptyCharLiteral             => 8
  | .UndefinedMacro               => 9
  | .InvalidTag                   => 10
  | .ExceededRecursionLimit       => 11
  | .SelfReferentialMacro         => 12
  | .UnexpectedToken              => 13
  | .UnexpectedEOF                => 14
  | .InvalidEscapeSequence        => 15
  | .DuplicateAttribute           => 16
  | .RegisterWithinHeap           => 17
  | .MismatchedDelimeter          => 18
  | .InvalidNumber                => 19
  | .IOError                      => 20
  | .SyntaxError                  => 21
  | .S_FATAL                      => 22

/-- Rust `derive(PartialOrd)` on the fieldless `ReportKind` enum compares
discriminants. -/
instance : LT ReportKind := ⟨fun a b => a.toNat < b.toNat⟩

instance (a b : ReportKind) : Decidable (a < b) :=
  inferInstanceAs (Decidable (a.toNat < b.toNat))

/-- Severity assignment, from `src/report.rs` lines 57-67
(`impl From<ReportKind> for Level`): a cascade of strict comparisons
against the four sentinel variants. -/
def Level.ofKind (kind : ReportKind) : Level :=
  if ReportKind.S_FATAL < kind then .Fatal
  else if ReportKind.S_ERROR < kind then .Error
  else if ReportKind.S_WARNING < kind then .Warn
  else if ReportKind.S_NOTE < kind then .Note
  else .Silent

/-- The four sentinel variants of `ReportKind`; every other variant is an
ordinary, constructible report kind. -/
def ReportKind.isSentinel : ReportKind → Bool
  | .S_NOTE | .S_WARNING | .S_ERROR | .S_FATAL => true
  | _ => false

/-- Diagnostic report, from `src/report.rs` lines 94-102 (`struct Report`).
The `file` field models the filename the handler files the report against
(`Report::file`, absent from the snapshot; Modelled from the spec: "`log`
files the report against a filename"). -/
structure Report where
  kind      : ReportKind
  title     : Option String
  span      : Option Span
  span_mask : List HighlightKind
  label     : Option String
  footers   : Option (List String)
  file      : Option String
  deriving DecidableEq, Repr

/-- Report builder, from `src/report.rs` lines 70-79 (`ReportKind::untitled`). -/
def ReportKind.untitled (kind : ReportKind) : Report :=
  ⟨kind, none, none, [], none, none, none⟩

/-- Report builder, from `src/report.rs` lines 81-91 (`ReportKind::title`).
The Rust `assert!` that the title is nonempty holds at every call site in
the snapshot (all titles are nonempty literals or `format!` results). -/
def ReportKind.title (kind : ReportKind) (t : String) : Report :=
  ⟨kind, some t, none, [], none, none, none⟩

/-- Span attachment, from `src/report.rs` lines 105-113 (`Report::span`):
the first `span` call wins for the location, masks always combine.  Named
`setSpan` because `span` is the field name. -/
def Report.setSpan (r : Report) (s : Span) : Report :=
  { r with
    span := match r.span with | none => some s | some old => some old,
    span_mask := maskCombine r.span_mask s.mask }

/-- Label attachment, from `src/report.rs` lines 115-118 (`Report::label`):
sets the label unconditionally, with no assertion of any kind.  Named
`setLabel` because `label` is the field name. -/
def Report.setLabel (r : Report) (l : String) : Report :=
  { r with label := some l }

/-- Footer attachment, from `src/report.rs` lines 136-142 (`Report::footer`). -/
def Report.footer (r : Report) (text : String) : Report :=
  { r with footers := match r.footers with
      | some fs => some (fs ++ [text])
      | none => some [text] }

/-- Severity of a report, from `src/report.rs` lines 144-147 (`Report::level`). -/
def Report.level (r : Report) : Level :=
  Level.ofKind r.kind

/-- Filename filing, Modelled from the spec: `Report::file` is called by
`Parser::log` but is absent from the snapshot's `report.rs`; the spec says
`log` "files the report against a filename (for later line lookup)". -/
def Report.setFile (r : Report) (f : String) : Report :=
  { r with file := some f }

/-- Display-time invariant check, from `src/report.rs` line 159
(`assert!(self.span.is_some() || self.label.is_none())` inside
`impl Display for Report`): `true` exactly when rendering the report does
not trip the assertion. -/
def Report.displayAssertOk (r : Report) : Bool :=
  r.span.isSome || r.label.isNone

/-- Token kinds, from `src/lexer/token.rs` lines 8-71 (`enum TokenKind`),
in declaration order.  The parser additionally matches on
`TokenKind::KWFn` (the `fn` keyword), which the snapshot's enum omits;
Modelled from the spec: "reserved words (`fn`/decl keywords, ...)" — it is
listed here with the other keyword variants. -/
inductive TokenKind where
  | Identifier            : TokenKind
  | KWFn                  : TokenKind
  | KWExport              : TokenKind
  | KWExtern              : TokenKind
  | KWImpl                : TokenKind
  | KWStatic              : TokenKind
  | KWLet                 : TokenKind
  | KWRet                 : TokenKind
  | KWType                : TokenKind
  | FloatLiteral          : TokenKind
  | BinaryIntLiteral      : TokenKind
  | OctalIntLiteral       : TokenKind
  | DecimalIntLiteral     : TokenKind
  | HexadecimalIntLiteral : TokenKind
  | StringLiteral         : TokenKind
  | CharLiteral           : TokenKind
  | Tilde                 : TokenKind
  | Bang                  : TokenKind
  | At                    : TokenKind
  | Pound                 : TokenKind
  | Dollar                : TokenKind
  | Percent               : TokenKind
  | Caret                 : TokenKind
  | CaretCaret            : TokenKind
  | Ampersand             : TokenKind
  | AmpersandAmpersand    : TokenKind
  | Star                  : TokenKind
  | LParen                : TokenKind
  | RParen                : TokenKind
  | Minus                 : TokenKind
  | Underscore            : TokenKind
  | Equals                : TokenKind
  | Plus                  : TokenKind
  | LBracket              : TokenKind
  | RBracket              : TokenKind
  | LBrace                : TokenKind
  | RBrace                : TokenKind
  | Pipe                  : TokenKind
  | PipePipe              : TokenKind
  | Semicolon             : TokenKind
  | Colon                 : TokenKind
  | Comma                 : TokenKind
  | Dot                   : TokenKind
  | Slash                 : TokenKind
  | Question              : TokenKind
  | ArrowLeft             : TokenKind
  | ArrowRight            : TokenKind
  | FatArrowRight         : TokenKind
  | GreaterThan           : TokenKind
  | GreaterThanEquals     : TokenKind
  | EqualsEquals          : TokenKind
  | LessThan              : TokenKind
  | LessThanEquals        : TokenKind
  | NotEquals             : TokenKind
  | ShiftLeft             : TokenKind
  | ShiftRight            : TokenKind
  | Apostrophe            : TokenKind
  | EOF                   : TokenKind
  deriving DecidableEq, Repr

/-- Rust `derive(Debug)` name of a `TokenKind` variant, as interpolated by
the parser's `format!("{:?}", ...)` report titles. -/
def TokenKind.debugStr : TokenKind → String
  | .Identifier            => "Identifier"
  | .KWFn                  => "KWFn"
  | .KWExport              => "KWExport"
  | .KWExtern              => "KWExtern"
  | .KWImpl                => "KWImpl"
  | .KWStatic              => "KWStatic"
  | .KWLet                 => "KWLet"
  | .KWRet                 => "KWRet"
  | .KWType                => "KWType"
  | .FloatLiteral          => "FloatLiteral"
  | .BinaryIntLiteral      => "BinaryIntLiteral"
  | .OctalIntLiteral       => "OctalIntLiteral"
  | .DecimalIntLiteral     => "DecimalIntLiteral"
  | .HexadecimalIntLiteral => "HexadecimalIntLiteral"
  | .StringLiteral         => "StringLiteral"
  | .CharLiteral           => "CharLiteral"
  | .Tilde                 => "Tilde"
  | .Bang                  => "Bang"
  | .At                    => "At"
  | .Pound                 => "Pound"
  | .Dollar                => "Dollar"
  | .Percent               => "Percent"
  | .Caret                 => "Caret"
  | .CaretCaret            => "CaretCaret"
  | .Ampersand             => "Ampersand"
  | .AmpersandAmpersand    => "AmpersandAmpersand"
  | .Star                  => "Star"
  | .LParen                => "LParen"
  | .RParen                => "RParen"
  | .Minus                 => "Minus"
  | .Underscore            => "Underscore"
  | .Equals                => "Equals"
  | .Plus                  => "Plus"
  | .LBracket              => "LBracket"
  | .RBracket              => "RBracket"
  | .LBrace                => "LBrace"
  | .RBrace                => "RBrace"
  | .Pipe                  => "Pipe"
  | .PipePipe              => "PipePipe"
  | .Semicolon             => "Semicolon"
  | .Colon                 => "Colon"
  | .Comma                 => "Comma"
  | .Dot                   => "Dot"
  | .Slash                 => "Slash"
  | .Question              => "Question"
  | .ArrowLeft             => "ArrowLeft"
  | .ArrowRight            => "ArrowRight"
  | .FatArrowRight         => "FatArrowRight"
  | .GreaterThan           => "GreaterThan"
  | .GreaterThanEquals     => "GreaterThanEquals"
  | .EqualsEquals          => "EqualsEquals"
  | .LessThan              => "LessThan"
  | .LessThanEquals        => "LessThanEquals"
  | .NotEquals             => "NotEquals"
  | .ShiftLeft             => "ShiftLeft"
  | .ShiftRight            => "ShiftRight"
  | .Apostrophe            => "Apostrophe"
  | .EOF                   => "EOF"

/-- Lexical token, from `src/lexer/token.rs` lines 73-78 (`struct Token`):
kind, occupied span, and raw source text. -/
structure Token where
  kind : TokenKind
  span : Span
  text : String
  deriving DecidableEq, Repr

/-- Modelled from the spec: `Sp<T>` (from the missing `span.rs`) wraps a
value with its source span; `parser/mod.rs` accesses `r.span` and derefs
`*r` to the wrapped value. -/
structure Sp (α : Type) where
  span : Span
  val  : α
  deriving Repr

/-- Modelled from the spec: the AST type grammar (`ast.rs` is referenced by
`pub mod ast` but missing from the snapshot); constructors are exactly the
`Type` variants the parser builds.  Named `Ty` because `Type` is a Lean
keyword.  The array element count and the primitive bit-width are the
numeric payloads (`TODO: array size` is reserved as an `Option`). -/
inductive Ty where
  | Ptr   : Sp Ty → Ty
  | Arr   : Sp Ty → Option Nat → Ty
  | Isize : Ty
  | Usize : Ty
  | U     : Nat → Ty
  | I     : Nat → Ty
  | B     : Nat → Ty
  | F     : Nat → Ty
  | Void  : Ty
  | Never : Ty
  | Opt   : Sp Ty → Ty
  | Mut   : Sp Ty → Ty
  | Ident : String → Ty
  deriving Repr

/-- Modelled from the spec: declaration attributes (`Attrs` in the missing
`ast.rs`): "a modifier (e.g., export/extern) attached to a declaration". -/
inductive Attrs where
  | Extern : Attrs
  | Export : Attrs
  deriving DecidableEq, Repr

/-- Modelled from the spec: AST nodes (`Node` in the missing `ast.rs`);
constructors are exactly those the parser builds in `src/parser/mod.rs`:
`Func { name, args, ret, body, attrs }`, `Assign { name, ty, value }`,
`Ret`, `FuncCall { name, args }`, `StrLit`, `UIntLit`, `Ident`. -/
inductive Node where
  | Func     : Sp String → List (Sp String × Sp Ty) → Option (Sp Ty) →
               List (Sp Node) → List (Sp Attrs) → Node
  | Assign   : Sp String → Sp Ty → Sp Node → Node
  | Ret      : Option (Sp Node) → Node
  | FuncCall : Sp String → List (Sp Node) → Node
  | StrLit   : String → Node
  | UIntLit  : Int → Node
  | Ident    : String → Node

/-- Numeric value of a decimal digit string. -/
def digitsVal (cs : List Char) : Nat :=
  cs.foldl (fun a c => 10 * a + (c.toNat - 48)) 0

/-- Modelled from the spec: the arbitrary-precision integer collaborator
(`bigint.rs` / `iBig` is missing from the snapshot) — "given decimal text,
returns a signed big integer value or fails with an invalid literal
condition"; every decimal digit string is valid, anything else is not. -/
def parseIBig (s : String) : Option Int :=
  if s.length > 0 && s.toList.all Char.isDigit then
    some (Int.ofNat (digitsVal s.toList))
  else none

/-- Modelled from the spec: the bit-width parse `n[1..].parse()` used for
primitive type spellings — "`u<N>` ... where `<N>` is a parsed bit-width".
The width's Rust integer type is defined in the missing `ast.rs`; `u32`
is assumed, so parses exceeding `u32::MAX` fail. -/
def parseWidth (s : String) : Option Nat :=
  if s.length > 0 && s.toList.all Char.isDigit then
    let v := digitsVal s.toList
    if v < 2 ^ 32 then some v else none
  else none

/-- Escape-character resolution, from `src/parser/mod.rs` lines 414-452
(`fn parse_char`): historical control codes; `none` models the
`unreachable!()` panic on any other character. -/
def parseChar : Char → Option Char
  | '0' | '@' => some (Char.ofNat 0x00)
  | 'A'       => some (Char.ofNat 0x01)
  | 'B'       => some (Char.ofNat 0x02)
  | 'C'       => some (Char.ofNat 0x03)
  | 'D'       => some (Char.ofNat 0x04)
  | 'E'       => some (Char.ofNat 0x05)
  | 'F'       => some (Char.ofNat 0x06)
  | 'G' | 'a' => some (Char.ofNat 0x07)
  | 'H' | 'b' => some (Char.ofNat 0x08)
  | 'I' | 't' => some (Char.ofNat 0x09)
  | 'J' | 'n' => some (Char.ofNat 0x0A)
  | 'K' | 'v' => some (Char.ofNat 0x0B)
  | 'L' | 'f' => some (Char.ofNat 0x0C)
  | 'M' | 'r' => some (Char.ofNat 0x0D)
  | 'N'       => some (Char.ofNat 0x0E)
  | 'O'       => some (Char.ofNat 0x0F)
  | 'P'       => some (Char.ofNat 0x10)
  | 'Q'       => some (Char.ofNat 0x11)
  | 'R'       => some (Char.ofNat 0x12)
  | 'S'       => some (Char.ofNat 0x13)
  | 'T'       => some (Char.ofNat 0x14)
  | 'U'       => some (Char.ofNat 0x15)
  | 'V'       => some (Char.ofNat 0x16)
  | 'W'       => some (Char.ofNat 0x17)
  | 'X'       => some (Char.ofNat 0x18)
  | 'Y'       => some (Char.ofNat 0x19)
  | 'Z'       => some (Char.ofNat 0x1A)
  | '[' | 'e' => some (Char.ofNat 0x1B)
  | '/'       => some (Char.ofNat 0x1C)
  | ']'       => some (Char.ofNat 0x1D)
  | '^'       => some (Char.ofNat 0x1E)
  | '_'       => some (Char.ofNat 0x1F)
  | '?'       => some (Char.ofNat 0x7F)
  | _         => none

/-- Escape loop of the string-literal branch, from `src/parser/mod.rs`
lines 320-332: a backslash sets the escape flag, an escaped character is
resolved through `parse_char` (whose `unreachable!()` propagates as
`none`), everything else is copied; a trailing backslash with the flag
still set is silently dropped when the character run ends. -/
def resolveEscapes : List Char → Bool → Option (List Char)
  | [], _ => some []
  | c :: rest, true =>
    match parseChar c, resolveEscapes rest false with
    | some r, some tail => some (r :: tail)
    | _, _ => none
  | c :: rest, false =>
    if c = '\\' then resolveEscapes rest true
    else match resolveEscapes rest false with
      | some tail => some (c :: tail)
      | none => none

/-- Outcome of one embedded parser production: `ok value index log` and
`err report index log` mirror `Result<T, Box<Report>>` together with the
cursor (`Parser::index`) and the handler's accumulated log; `panic` models
a Rust panic (`self.tokens[self.index]` out of bounds in `current()`,
`unreachable!()`, a failed `assert!` or `unwrap`); `oof` is fuel
exhaustion of the embedding, distinct from every real outcome. -/
inductive PRes (α : Type) where
  | ok    : α → Nat → List Report → PRes α
  | err   : Report → Nat → List Report → PRes α
  | panic : PRes α
  | oof   : PRes α

/-- Outcome of the top-level `Parser::parse`: the produced AST together
with the reports logged to the handler, or a panic / fuel exhaustion. -/
inductive ParseRes where
  | done  : List (Sp Node) → List Report → ParseRes
  | panic : ParseRes
  | oof   : ParseRes

namespace Parser

variable (toks : List Token) (fname : String)

/-- Cursor lookup, from `src/parser/mod.rs` lines 17-20 (`Parser::current`):
`self.tokens[self.index]`, which panics when the index is out of bounds —
hence the `Option`. -/
def currentTok (i : Nat) : Option Token :=
  toks[i]?

/-- Recovery scan shared by `Parser::parse` (lines 63-65) and
`Parser::parse_block` (lines 205-207): advance while the current token is
neither `;` nor `}`.  The loop tests no other kind — in particular not
`EOF` — so it runs off the end of the token sequence (a `current()` panic)
when no delimiter remains. -/
def skipToDelim : Nat → Nat → PRes Unit
  | 0, _ => .oof
  | fuel + 1, i =>
    match currentTok toks i with
    | none => .panic
    | some t =>
      if t.kind = .Semicolon ∨ t.kind = .RBrace then .ok () i []
      else skipToDelim fuel (i + 1)

/-- Type productions, from `src/parser/mod.rs` lines 361-411
(`Parser::parse_type`).  The cursor is advanced past the head token before
the dispatch; the identifier arm checks the spellings in source order
(`isize`, `usize`, the `u`/`i`/`b`/`f` bit-width prefixes, `void`,
`never`, `opt`, `mut`, else a user type reference). -/
def parseType : Nat → Nat → List Report → PRes (Sp Ty)
  | 0, _, _ => .oof
  | fuel + 1, i, log =>
    match currentTok toks i with
    | none => .panic
    | some token =>
      match token.kind with
      | .Star =>
        match parseType fuel (i + 1) log with
        | .ok ty k log2 => .ok ⟨token.span, .Ptr ty⟩ k log2
        | .err r k log2 => .err r k log2
        | .panic => .panic
        | .oof => .oof
      | .LBracket =>
        match parseType fuel (i + 1) log with
        | .ok ty k log2 =>
          match currentTok toks k with
          | none => .panic
          | some t2 =>
            if t2.kind = .RBracket then
              match currentTok toks (k + 1) with
              | none => .panic
              | some t3 => .ok ⟨token.span.extend t3.span, .Arr ty none⟩ (k + 1) log2
            else .err ((ReportKind.UnexpectedToken.title "Expected ']'").setSpan t2.span) k log2
        | .err r k log2 => .err r k log2
        | .panic => .panic
        | .oof => .oof
      | .Identifier =>
        if token.text = "isize" then .ok ⟨token.span, .Isize⟩ (i + 1) log
        else if token.text = "usize" then .ok ⟨token.span, .Usize⟩ (i + 1) log
        else if token.text.startsWith "u" then
          match parseWidth (token.text.drop 1) with
          | some n => .ok ⟨token.span, .U n⟩ (i + 1) log
          | none => .err (((ReportKind.InvalidNumber.title
              "Invalid integer in primitive type").setLabel "try 'u8'").setSpan token.span) (i + 1) log
        else if token.text.startsWith "i" then
          match parseWidth (token.text.drop 1) with
          | some n => .ok ⟨token.span, .I n⟩ (i + 1) log
          | none => .err (((ReportKind.InvalidNumber.title
              "Invalid integer in primitive type").setLabel "try 'i8'").setSpan token.span) (i + 1) log
        else if token.text.startsWith "b" then
          match parseWidth (token.text.drop 1) with
          | some n => .ok ⟨token.span, .B n⟩ (i + 1) log
          | none => .err (((ReportKind.InvalidNumber.title
              "Invalid integer in primitive type").setLabel "try 'b8'").setSpan token.span) (i + 1) log
        else if token.text.startsWith "f" then
          match parseWidth (token.text.drop 1) with
          | some n => .ok ⟨token.span, .F n⟩ (i + 1) log
          | none => .err (((ReportKind.InvalidNumber.title
              "Invalid integer in primitive type").setLabel "try 'f8'").setSpan token.span) (i + 1) log
        else if token.text = "void" then .ok ⟨token.span, .Void⟩ (i + 1) log
        else if token.text = "never" then .ok ⟨token.span, .Never⟩ (i + 1) log
        else if token.text = "opt" then
          match parseType fuel (i + 1) log with
          | .ok ty k log2 => .ok ⟨token.span, .Opt ty⟩ k log2
          | .err r k log2 => .err r k log2
          | .panic => .panic
          | .oof => .oof
        else if token.text = "mut" then
          match parseType fuel (i + 1) log with
          | .ok ty k log2 => .ok ⟨token.span, .Mut ty⟩ k log2
          | .err r k log2 => .err r k log2
          | .panic => .panic
          | .oof => .oof
        else .ok ⟨token.span, .Ident token.text⟩ (i + 1) log
      | _ => .err ((ReportKind.UnexpectedToken.title "Expected type").setSpan token.span) (i + 1) log

mutual

/-- Expression productions, from `src/parser/mod.rs` lines 272-359
(`Parser::parse_expr`): `$name(args,...)` / `$name expr` calls, string
literals with escape resolution, decimal integer literals through the
big-integer collaborator, bare identifiers.  Every successful branch wraps
its node in `head.span.extend(current().span)` with the cursor already
advanced past the consumed tokens. -/
def parseExpr : Nat → Nat → List Report → PRes (Sp Node)
  | 0, _, _ => .oof
  | fuel + 1, i, log =>
    match currentTok toks i with
    | none => .panic
    | some token =>
      match token.kind with
      | .Dollar =>
        match currentTok toks (i + 1) with
        | none => .panic
        | some t2 =>
          if t2.kind = .Identifier then
            match currentTok toks (i + 2) with
            | none => .panic
            | some t3 =>
              match (if t3.kind = .LParen then parseCallArgs fuel (i + 3) [] log
                     else match parseExpr fuel (i + 2) log with
                          | .ok e k log2 => .ok [e] k log2
                          | .err r k log2 => .err r k log2
                          | .panic => .panic
                          | .oof => .oof) with
              | .ok args k log2 =>
                match currentTok toks k with
                | none => .panic
                | some cur =>
                  .ok ⟨token.span.extend cur.span, .FuncCall ⟨t2.span, t2.text⟩ args⟩ k log2
              | .err r k log2 => .err r k log2
              | .panic => .panic
              | .oof => .oof
          else .err ((ReportKind.UnexpectedToken.title "Expected identifier").setSpan t2.span) (i + 1) log
      | .StringLiteral =>
        match resolveEscapes token.text.toList false with
        | none => .panic
        | some cs =>
          match currentTok toks (i + 1) with
          | none => .panic
          | some cur => .ok ⟨token.span.extend cur.span, .StrLit (String.mk cs)⟩ (i + 1) log
      | .DecimalIntLiteral =>
        match parseIBig token.text with
        | some v =>
          match currentTok toks (i + 1) with
          | none => .panic
          | some cur => .ok ⟨token.span.extend cur.span, .UIntLit v⟩ (i + 1) log
        | none =>
          .err ((ReportKind.InvalidNumber.title "Invalid integer literal").setSpan token.span) (i + 1) log
      | .Identifier =>
        match currentTok toks (i + 1) with
        | none => .panic
        | some cur => .ok ⟨token.span.extend cur.span, .Ident token.text⟩ (i + 1) log
      | _ => .err ((ReportKind.UnexpectedToken.title "Expected expression").setSpan token.span) i log

/-- Call-argument loop of the `$name(...)` form, from `src/parser/mod.rs`
lines 296-309: `)` ends the list, `,` is skipped, `EOF` is an
`UnexpectedEOF` error pointing at the previous token, anything else parses
as an argument expression. -/
def parseCallArgs : Nat → Nat → List (Sp Node) → List Report → PRes (List (Sp Node))
  | 0, _, _, _ => .oof
  | fuel + 1, j, acc, log =>
    match currentTok toks j with
    | none => .panic
    | some t =>
      match t.kind with
      | .RParen => .ok acc (j + 1) log
      | .Comma => parseCallArgs fuel (j + 1) acc log
      | .EOF =>
        if j = 0 then .panic
        else
          match currentTok toks (j - 1) with
          | none => .panic
          | some pt => .err ((ReportKind.UnexpectedEOF.title "Expected ')'").setSpan pt.span) j log
      | _ =>
        match parseExpr fuel j log with
        | .ok e k log2 => parseCallArgs fuel k (acc ++ [e]) log2
        | .err r k log2 => .err r k log2
        | .panic => .panic
        | .oof => .oof

end

/-- Statement head, from `src/parser/mod.rs` lines 224-262: the `match`
inside `Parser::parse_stmt` that produces the statement node (a `let`
binding, a `ret`, or a bare expression) before the terminator check. -/
def parseStmtCore (fuel i : Nat) (log : List Report) : PRes (Sp Node) :=
  match currentTok toks i with
  | none => .panic
  | some t0 =>
    match t0.kind with
    | .KWLet =>
      match currentTok toks (i + 1) with
      | none => .panic
      | some tok =>
        if tok.kind = .Identifier then
          match currentTok toks (i + 2) with
          | none => .panic
          | some t2 =>
            if t2.kind = .Colon then
              match parseType toks fuel (i + 3) log with
              | .ok ty k log2 =>
                match currentTok toks k with
                | none => .panic
                | some t3 =>
                  if t3.kind = .Equals then
                    match parseExpr toks fuel (k + 1) log2 with
                    | .ok v m log3 =>
                      match currentTok toks m with
                      | none => .panic
                      | some t4 =>
                        .ok ⟨tok.span.extend t4.span, .Assign ⟨tok.span, tok.text⟩ ty v⟩ m log3
                    | .err r m log3 => .err r m log3
                    | .panic => .panic
                    | .oof => .oof
                  else .err ((ReportKind.UnexpectedToken.title
                      ("Expected '=', got '" ++ t3.kind.debugStr ++ "'")).setSpan t3.span) k log2
              | .err r k log2 => .err r k log2
              | .panic => .panic
              | .oof => .oof
            else .err ((ReportKind.UnexpectedToken.title
                ("Expected ':', got '" ++ t2.kind.debugStr ++ "'")).setSpan t2.span) (i + 2) log
        else .err ((ReportKind.UnexpectedToken.title
            ("Expected identifier, got '" ++ tok.kind.debugStr ++ "'")).setSpan tok.span) (i + 1) log
    | .KWRet =>
      match currentTok toks (i + 1) with
      | none => .panic
      | some t1 =>
        if t1.kind = .Semicolon then .ok ⟨t1.span, .Ret none⟩ (i + 1) log
        else
          match parseExpr toks fuel (i + 1) log with
          | .ok e k log2 =>
            match currentTok toks k with
            | none => .panic
            | some t2 => .ok ⟨t2.span, .Ret (some e)⟩ k log2
          | .err r k log2 => .err r k log2
          | .panic => .panic
          | .oof => .oof
    | _ => parseExpr toks fuel i log

/-- Statement production, from `src/parser/mod.rs` lines 223-270
(`Parser::parse_stmt`): the statement head followed by the mandatory `;`
terminator — `advance_if(Semicolon)` consumes it on success and otherwise
returns an `UnexpectedToken` error naming the found kind. -/
def parseStmt (fuel i : Nat) (log : List Report) : PRes (Sp Node) :=
  match parseStmtCore toks fuel i log with
  | .ok a j log2 =>
    match currentTok toks j with
    | none => .panic
    | some t =>
      if t.kind = .Semicolon then .ok a (j + 1) log2
      else .err ((ReportKind.UnexpectedToken.title
          ("Expected ';', got '" ++ t.kind.debugStr ++ "'")).setSpan t.span) j log2
  | .err r j log2 => .err r j log2
  | .panic => .panic
  | .oof => .oof

/-- Block production, from `src/parser/mod.rs` lines 187-221
(`Parser::parse_block`): statements until `}` (consumed), `EOF` is an
`UnexpectedEOF` error pointing at `peek(-1)`; a failed statement is
logged, tokens are skipped to the next `;`/`}` (the scan again tests no
other kind), a found `}` is consumed and ends the block, a found `;` is
consumed and parsing resumes. -/
def parseBlock : Nat → Nat → List (Sp Node) → List Report → PRes (List (Sp Node))
  | 0, _, _, _ => .oof
  | fuel + 1, i, acc, log =>
    match currentTok toks i with
    | none => .panic
    | some token =>
      match token.kind with
      | .RBrace => .ok acc (i + 1) log
      | .EOF =>
        if i = 0 then .panic
        else
          match currentTok toks (i - 1) with
          | none => .panic
          | some pt => .err ((ReportKind.UnexpectedEOF.title "Expected '\x7d'").setSpan pt.span) i log
      | _ =>
        match parseStmt toks fuel i log with
        | .ok s j log2 => parseBlock fuel j (acc ++ [s]) log2
        | .err r j log2 =>
          match skipToDelim toks fuel j with
          | .ok _ k _ =>
            match currentTok toks k with
            | none => .panic
            | some tk =>
              if tk.kind = .RBrace then .ok acc (k + 1) (log2 ++ [r.setFile fname])
              else parseBlock fuel (k + 1) acc (log2 ++ [r.setFile fname])
          | .err r2 k log3 => .err r2 k log3
          | .panic => .panic
          | .oof => .oof
        | .panic => .panic
        | .oof => .oof

/-- Parameter-list loop of `Parser::parse_func`, from `src/parser/mod.rs`
lines 133-159: each iteration advances, then `)` ends the list,
`name : Type` appends a parameter (a trailing `)` after the type also ends
the list), anything else is an `UnexpectedToken` error. -/
def parseFuncArgs : Nat → Nat → List (Sp String × Sp Ty) → List Report →
    PRes (List (Sp String × Sp Ty))
  | 0, _, _, _ => .oof
  | fuel + 1, j, acc, log =>
    match currentTok toks (j + 1) with
    | none => .panic
    | some token =>
      match token.kind with
      | .RParen => .ok acc (j + 1) log
      | .Identifier =>
        match currentTok toks (j + 2) with
        | none => .panic
        | some t2 =>
          if t2.kind = .Colon then
            match parseType toks fuel (j + 3) log with
            | .ok ty k log2 =>
              match currentTok toks k with
              | none => .panic
              | some t3 =>
                if t3.kind = .RParen then .ok (acc ++ [(⟨token.span, token.text⟩, ty)]) k log2
                else parseFuncArgs fuel k (acc ++ [(⟨token.span, token.text⟩, ty)]) log2
            | .err r k log2 => .err r k log2
            | .panic => .panic
            | .oof => .oof
          else .err ((ReportKind.UnexpectedToken.title "Expected ':'").setSpan t2.span) (j + 2) log
      | _ => .err ((ReportKind.UnexpectedToken.title "Expected identifier").setSpan token.span) (j + 1) log

/-- Body dispatch of `Parser::parse_func`, from `src/parser/mod.rs` lines
162-181: with the cursor already past `)`, a `:` yields a single-statement
body (`parse_stmt` is invoked with the cursor still at the `:`), a `{`
yields a block body (`parse_block` is invoked with the cursor still at the
`{`), a `;` yields an empty body with the `;` left unconsumed; otherwise a
return type is parsed, the marker token is consumed, and the same three
body forms follow it. -/
def parseFuncBody (fuel p : Nat) (log : List Report) :
    PRes (List (Sp Node) × Option (Sp Ty)) :=
  match currentTok toks p with
  | none => .panic
  | some t =>
    match t.kind with
    | .Colon =>
      match parseStmt toks fuel p log with
      | .ok s j log2 => .ok ([s], none) j log2
      | .err r j log2 => .err r j log2
      | .panic => .panic
      | .oof => .oof
    | .LBrace =>
      match parseBlock toks fname fuel p [] log with
      | .ok b j log2 => .ok (b, none) j log2
      | .err r j log2 => .err r j log2
      | .panic => .panic
      | .oof => .oof
    | .Semicolon => .ok ([], none) p log
    | _ =>
      match parseType toks fuel p log with
      | .ok ty q log2 =>
        match currentTok toks q with
        | none => .panic
        | some t2 =>
          match t2.kind with
          | .Colon =>
            match parseStmt toks fuel (q + 1) log2 with
            | .ok s j log3 => .ok ([s], some ty) j log3
            | .err r j log3 => .err r j log3
            | .panic => .panic
            | .oof => .oof
          | .LBrace =>
            match parseBlock toks fname fuel (q + 1) [] log2 with
            | .ok b j log3 => .ok (b, some ty) j log3
            | .err r j log3 => .err r j log3
            | .panic => .panic
            | .oof => .oof
          | .Semicolon => .ok ([], some ty) (q + 1) log2
          | _ => .err ((ReportKind.UnexpectedToken.title
              "Expected '\x7b', ';', or ':'").setSpan t2.span) (q + 1) log2
      | .err r q log2 => .err r q log2
      | .panic => .panic
      | .oof => .oof

/-- Function production, from `src/parser/mod.rs` lines 114-185
(`Parser::parse_func`): entered with the cursor at the `fn` keyword, it
advances, requires an identifier (bound as `token` — the binding whose
span seeds the final node span), requires `(`, runs the parameter loop,
advances past `)`, dispatches the body, and wraps the node in
`token.span.extend(self.current().span)` — the identifier's span extended
to the span of whatever token the cursor rests on afterwards. -/
def parseFunc (fuel i : Nat) (log : List Report) : PRes (Sp Node) :=
  match currentTok toks (i + 1) with
  | none => .panic
  | some token =>
    if token.kind = .Identifier then
      match currentTok toks (i + 2) with
      | none => .panic
      | some t2 =>
        if t2.kind = .LParen then
          match parseFuncArgs toks fuel (i + 2) [] log with
          | .ok args j log2 =>
            match parseFuncBody toks fname fuel (j + 1) log2 with
            | .ok (body, ret) m log3 =>
              match currentTok toks m with
              | none => .panic
              | some cur =>
                .ok ⟨token.span.extend cur.span,
                     .Func ⟨token.span, token.text⟩ args ret body []⟩ m log3
            | .err r m log3 => .err r m log3
            | .panic => .panic
            | .oof => .oof
          | .err r j log2 => .err r j log2
          | .panic => .panic
          | .oof => .oof
        else .err ((ReportKind.UnexpectedToken.title "Expected '('").setSpan t2.span) (i + 2) log
    else .err ((ReportKind.UnexpectedToken.title "Expected identifier").setSpan token.span) (i + 1) log

/-- Global-declaration dispatch, from `src/parser/mod.rs` lines 74-112
(`Parser::parse_global`): `fn` parses a function; `extern`/`export`
advances, errors with `UnexpectedEOF` if the next token is `EOF`, and
otherwise parses the next global, pushes the modifier onto the produced
`Func` node's attribute list and extends the node's span over the modifier
token (any non-`Func` result is `unreachable!()`); any other token is
consumed and reported as `UnexpectedToken`. -/
def parseGlobal : Nat → Nat → List Report → PRes (Sp Node)
  | 0, _, _ => .oof
  | fuel + 1, i, log =>
    match currentTok toks i with
    | none => .panic
    | some token =>
      match token.kind with
      | .KWFn => parseFunc toks fname fuel i log
      | .KWExtern =>
        match currentTok toks (i + 1) with
        | none => .panic
        | some t2 =>
          if t2.kind = .EOF then
            .err ((ReportKind.UnexpectedEOF.untitled).setSpan token.span) (i + 1) log
          else
            match parseGlobal fuel (i + 1) log with
            | .ok r j log2 =>
              match r.val with
              | .Func name args ret body attrs =>
                .ok ⟨token.span.extend r.span,
                     .Func name args ret body (attrs ++ [⟨token.span, .Extern⟩])⟩ j log2
              | _ => .panic
            | .err rr j log2 => .err rr j log2
            | .panic => .panic
            | .oof => .oof
      | .KWExport =>
        match currentTok toks (i + 1) with
        | none => .panic
        | some t2 =>
          if t2.kind = .EOF then
            .err ((ReportKind.UnexpectedEOF.untitled).setSpan token.span) (i + 1) log
          else
            match parseGlobal fuel (i + 1) log with
            | .ok r j log2 =>
              match r.val with
              | .Func name args ret body attrs =>
                .ok ⟨token.span.extend r.span,
                     .Func name args ret body (attrs ++ [⟨token.span, .Export⟩])⟩ j log2
              | _ => .panic
            | .err rr j log2 => .err rr j log2
            | .panic => .panic
            | .oof => .oof
      | k =>
        .err ((ReportKind.UnexpectedToken.title
            ("got '" ++ k.debugStr ++ "'")).setSpan token.span) (i + 1) log

/-- Top-level loop of `Parser::parse`, from `src/parser/mod.rs` lines
56-69: while the current token is not `EOF`, parse one global; on success
append it; on failure log the report (filed against the filename), break
if the cursor now rests on `EOF`, otherwise skip to the next `;`/`}`
(a scan that tests no other kind), consume that delimiter, and continue. -/
def parseLoop : Nat → Nat → List (Sp Node) → List Report → ParseRes
  | 0, _, _, _ => .oof
  | fuel + 1, i, ast, log =>
    match currentTok toks i with
    | none => .panic
    | some t =>
      if t.kind = .EOF then .done ast log
      else
        match parseGlobal toks fname fuel i log with
        | .ok g j log2 => parseLoop fuel j (ast ++ [g]) log2
        | .err r j log2 =>
          match currentTok toks j with
          | none => .panic
          | some t2 =>
            if t2.kind = .EOF then .done ast (log2 ++ [r.setFile fname])
            else
              match skipToDelim toks fuel j with
              | .ok _ k _ => parseLoop fuel (k + 1) ast (log2 ++ [r.setFile fname])
              | .err _ _ _ => .panic
              | .panic => .panic
              | .oof => .oof
        | .panic => .panic
        | .oof => .oof

/-- Entry point, from `src/parser/mod.rs` lines 46-72 (`Parser::parse`):
an empty token sequence returns an empty AST immediately; otherwise the
top-level loop runs from cursor 0. -/
def parse (fuel : Nat) : ParseRes :=
  if toks.isEmpty then .done [] [] else parseLoop toks fname fuel 0 [] []

end Parser

/-- Token constructor shorthand for the concrete inputs below. -/
def mkTok (k : TokenKind) (a b : Nat) (t : String) : Token :=
  ⟨k, ⟨a, b⟩, t⟩

/-- Token sequence of the source `fn (` — a failed global with no
`;`/`}` delimiter anywhere before the `EOF` sentinel. -/
def tokensFnLParen : List Token :=
  [mkTok .KWFn 0 2 "", mkTok .LParen 3 4 "", mkTok .EOF 4 4 ""]

/-- Token sequence of the source `let :` — a failed global with no
`;`/`}` delimiter anywhere before the `EOF` sentinel. -/
def tokensLetColon : List Token :=
  [mkTok .KWLet 0 3 "", mkTok .Colon 4 5 "", mkTok .EOF 5 5 ""]

/-- Token sequence of the source `fn f();` with byte-accurate spans:
`fn` at 0-2, `f` at 3-4, `(` at 4-5, `)` at 5-6, `;` at 6-7. -/
def tokensFnDecl : List Token :=
  [mkTok .KWFn 0 2 "", mkTok .Identifier 3 4 "f", mkTok .LParen 4 5 "",
   mkTok .RParen 5 6 "", mkTok .Semicolon 6 7 "", mkTok .EOF 7 7 ""]

/-- Token sequence of the source `export fn main(): void;` with
byte-accurate spans (`export` at 0-6, `main` at 10-14, `:` at 16-17,
`void` at 18-22, `;` at 22-23). -/
def tokensExportColonVoid : List Token :=
  [mkTok .KWExport 0 6 "", mkTok .KWFn 7 9 "", mkTok .Identifier 10 14 "main",
   mkTok .LParen 14 15 "", mkTok .RParen 15 16 "", mkTok .Colon 16 17 "",
   mkTok .Identifier 18 22 "void", mkTok .Semicolon 22 23 "", mkTok .EOF 23 23 ""]

/-- Token sequence of the source `export fn main();` with byte-accurate
spans (`export` at 0-6, `main` at 10-14, `;` at 16-17). -/
def tokensExportDecl : List Token :=
  [mkTok .KWExport 0 6 "", mkTok .KWFn 7 9 "", mkTok .Identifier 10 14 "main",
   mkTok .LParen 14 15 "", mkTok .RParen 15 16 "", mkTok .Semicolon 16 17 "",
   mkTok .EOF 17 17 ""]

/-- Token sequence holding one string literal whose raw text is
`a\tb` (backslash-t, four characters), followed by the `EOF` sentinel. -/
def tokensStrLit : List Token :=
  [mkTok .StringLiteral 0 6 "a\\tb", mkTok .EOF 6 6 ""]

/-- Token sequence holding the decimal integer literal `42`. -/
def tokensIntLit : List Token :=
  [mkTok .DecimalIntLiteral 0 2 "42", mkTok .EOF 2 2 ""]

/-- Token sequence holding the malformed decimal integer literal `4x`. -/
def tokensBadIntLit : List Token :=
  [mkTok .DecimalIntLiteral 0 2 "4x", mkTok .EOF 2 2 ""]

/-- Token sequence of the statement `x;` (bare expression, terminated). -/
def tokensStmtIdent : List Token :=
  [mkTok .Identifier 0 1 "x", mkTok .Semicolon 1 2 "", mkTok .EOF 2 2 ""]

/-!
Theorems settling the claims.
-/

/-- C1: the claim states that the top-level recovery resynchronization
scan skips tokens until `;`, `}` or `EOF` and never reads past the end of
the token sequence.  The scan at `src/parser/mod.rs` lines 63-65 tests
only `;` and `}`; on the tokens of `fn (` (a failed global with no
delimiter left) it advances past the `EOF` sentinel and `current()`
indexes out of bounds — the embedded parser reaches the panic outcome. -/
theorem c1_recovery_scan_reads_past_end :
    Parser.parse tokensFnLParen "main.onyx" 64 = .panic := by
  rfl

/-- C2: the claim states that on every token sequence ending in the `EOF`
sentinel the parser terminates returning an AST and `current()` never
indexes outside the token sequence.  On the tokens of `let :` the failed
global leaves the cursor on `:`, the recovery scan finds no `;`/`}`,
advances past `EOF`, and `current()` indexes out of bounds — the embedded
parser reaches the panic outcome instead of returning an AST. -/
theorem c2_parse_panics_on_delimiterless_input :
    Parser.parse tokensLetColon "main.onyx" 64 = .panic := by
  rfl

/-- C3: the severity levels are totally ordered
`Fatal < Error < Warn < Note < Silent` (lower discriminant = more severe:
irreflexive, transitive, total), and for every `ReportKind` the level
computed by `Level::from` is determined by the kind's position relative to
the four sentinels — after `_FATAL_` maps to `Fatal`, else after `_ERROR_`
to `Error`, else after `_WARNING_` to `Warn`, else after `_NOTE_` to
`Note`, otherwise `Silent`. -/
theorem c3_severity_order_and_sentinel_mapping :
    (Level.Fatal < Level.Error ∧ Level.Error < Level.Warn ∧
     Level.Warn < Level.Note ∧ Level.Note < Level.Silent) ∧
    (∀ a : Level, ¬ a < a) ∧
    (∀ a b c : Level, a < b → b < c → a < c) ∧
    (∀ a b : Level, a < b ∨ a = b ∨ b < a) ∧
    (∀ k : ReportKind,
      (ReportKind.S_FATAL < k → Level.ofKind k = .Fatal) ∧
      (¬ ReportKind.S_FATAL < k → ReportKind.S_ERROR < k →
        Level.ofKind k = .Error) ∧
      (¬ ReportKind.S_FATAL < k → ¬ ReportKind.S_ERROR < k →
        ReportKind.S_WARNING < k → Level.ofKind k = .Warn) ∧
      (¬ ReportKind.S_FATAL < k → ¬ ReportKind.S_ERROR < k →
        ¬ ReportKind.S_WARNING < k → ReportKind.S_NOTE < k →
        Level.ofKind k = .Note) ∧
      (¬ ReportKind.S_FATAL < k → ¬ ReportKind.S_ERROR < k →
        ¬ ReportKind.S_WARNING < k → ¬ ReportKind.S_NOTE < k →
        Level.ofKind k = .Silent)) := by
  refine ⟨by decide, ?_, ?_, ?_, ?_⟩
  · intro a; cases a <;> decide
  · intro a b c; cases a <;> cases b <;> cases c <;> decide
  · intro a b; cases a <;> cases b <;> decide
  · intro k; cases k <;> exact ⟨by decide, by decide, by decide, by decide, by decide⟩

/-- C3 witness: `UnexpectedToken` is ordered after `_ERROR_`, not after
`_FATAL_`, and accordingly maps to `Error`. -/
theorem c3_witness :
    ¬ ReportKind.S_FATAL < ReportKind.UnexpectedToken ∧
    ReportKind.S_ERROR < ReportKind.UnexpectedToken ∧
    Level.ofKind ReportKind.UnexpectedToken = Level.Error :=
  ⟨by decide, by decide,
   (c3_severity_order_and_sentinel_mapping.2.2.2.2 ReportKind.UnexpectedToken).2.1
     (by decide) (by decide)⟩

/-- C10: no `ReportKind` is ordered after `_FATAL_`, so no kind maps to
`Fatal`; and every non-sentinel kind (`ArgumentParserError` through
`SyntaxError`) maps to `Error` — in particular never to `Warn` or `Note`. -/
theorem c10_constructible_kinds_map_to_error :
    (∀ k : ReportKind, ¬ ReportKind.S_FATAL < k) ∧
    (∀ k : ReportKind, Level.ofKind k ≠ .Fatal) ∧
    (∀ k : ReportKind, k.isSentinel = false →
      Level.ofKind k = .Error ∧ Level.ofKind k ≠ .Warn ∧ Level.ofKind k ≠ .Note) := by
  refine ⟨?_, ?_, ?_⟩ <;> intro k <;> cases k <;> decide

/-- C10 witness: `UnexpectedEOF` is a non-sentinel kind and maps to
`Error`. -/
theorem c10_witness :
    ReportKind.UnexpectedEOF.isSentinel = false ∧
    Level.ofKind ReportKind.UnexpectedEOF = Level.Error :=
  ⟨rfl, (c10_constructible_kinds_map_to_error.2.2 ReportKind.UnexpectedEOF rfl).1⟩

/-- C8: parsing a string-literal token with raw text `a\tb` yields a
`StrLit` with the three-character content `a`, TAB, `b`; and the escape
table maps `n` to LF (0x0A), `t` to TAB (0x09), and `0`/`@` to NUL
(0x00). -/
theorem c8_escape_resolution :
    Parser.parseExpr tokensStrLit 64 0 [] =
      .ok ⟨Span.extend ⟨0, 6⟩ ⟨6, 6⟩, .StrLit "a\tb"⟩ 1 [] ∧
    parseChar 'n' = some (Char.ofNat 0x0A) ∧
    parseChar 't' = some (Char.ofNat 0x09) ∧
    parseChar '0' = some (Char.ofNat 0x00) ∧
    parseChar '@' = some (Char.ofNat 0x00) :=
  ⟨rfl, rfl, rfl, rfl, rfl⟩

/-- C9 counterexample: the claim states that no report with a label and
without a span can exist without triggering an assertion.  The builder
functions contain no assertion: `Report::label` on a span-less report
succeeds and yields exactly such a value. -/
theorem c9_counterexample :
    ((ReportKind.UnexpectedToken.untitled).setLabel "test").label = some "test" ∧
    ((ReportKind.UnexpectedToken.untitled).setLabel "test").span = none :=
  ⟨rfl, rfl⟩

/-- C9 amended: the label-without-span invariant is not checked at
construction; it is asserted only when the report is rendered — the
`Display` implementation's assertion fails for every report that has a
label and no span. -/
theorem c9_label_checked_only_at_display :
    ∀ r : Report, r.label.isSome = true → r.span = none →
      r.displayAssertOk = false := by
  intro r h1 h2
  simp [Report.displayAssertOk, h1, h2]

/-- C9 witness: rendering the span-less labelled report built by the
counterexample's constructor chain trips the display assertion. -/
theorem c9_witness :
    ((ReportKind.UnexpectedToken.untitled).setLabel "test").displayAssertOk = false :=
  c9_label_checked_only_at_display ((ReportKind.UnexpectedToken.untitled).setLabel "test")
    rfl rfl

/-- C5 counterexample: the claim states that parsing the tokens of
`export fn main(): void;` produces exactly one `Func` node with an
`Export` attribute and an empty body.  It actually produces an empty AST
and one logged `UnexpectedToken` ("Expected expression") report at the
colon: the bodiless-colon branch of `parse_func` (line 163) invokes
`parse_stmt` with the cursor still at the `:`. -/
theorem c5_counterexample :
    Parser.parse tokensExportColonVoid "main.onyx" 64 =
      .done []
        [((ReportKind.UnexpectedToken.title "Expected expression").setSpan
            ⟨16, 17⟩).setFile "main.onyx"] := by
  rfl

/-- C5 amended: parsing `export fn main(): void;` produces no nodes and
one `UnexpectedToken` report (the `:` body marker is not consumed before
`parse_stmt` runs); the modifier mechanism itself works as claimed when
the following global does parse — `export fn main();` yields exactly one
`Func` node carrying the `Export` attribute, an empty body, and a span
extended over the `export` keyword (plus one logged report for the `;`
the function production leaves unconsumed). -/
theorem c5_export_modifier_attachment :
    Parser.parse tokensExportColonVoid "main.onyx" 64 =
      .done []
        [((ReportKind.UnexpectedToken.title "Expected expression").setSpan
            ⟨16, 17⟩).setFile "main.onyx"] ∧
    Parser.parse tokensExportDecl "main.onyx" 64 =
      .done [⟨⟨0, 17⟩, .Func ⟨⟨10, 14⟩, "main"⟩ [] none [] [⟨⟨0, 6⟩, .Export⟩]⟩]
        [((ReportKind.UnexpectedToken.title "got 'Semicolon'").setSpan
            ⟨16, 17⟩).setFile "main.onyx"] :=
  ⟨rfl, rfl⟩

/-- C4 counterexample: the claim states that a successfully parsed
function's span starts at its `fn` keyword.  Parsing `fn f();` (with `fn`
occupying bytes 0-2 and the name `f` byte 3) produces a `Func` node whose
span starts at byte 3 — the identifier — not at the `fn` keyword's start
0.  (The unconsumed `;` additionally produces a stray logged report.) -/
theorem c4_counterexample :
    Parser.parse tokensFnDecl "main.onyx" 64 =
      .done [⟨⟨3, 7⟩, .Func ⟨⟨3, 4⟩, "f"⟩ [] none [] []⟩]
        [((ReportKind.UnexpectedToken.title "got 'Semicolon'").setSpan
            ⟨6, 7⟩).setFile "main.onyx"] ∧
    (Span.mk 3 7).start ≠ (Span.mk 0 2).start :=
  ⟨by rfl, by decide⟩

/-- C4 amended: for every function declaration `parse_func` parses
successfully, the produced node's span is the span of the identifier
token after `fn` (the function's name) extended to the span of the token
the cursor rests on when `parse_func` finishes — the unconsumed `;` for a
bodiless declaration, or the token following the body's closing brace. -/
theorem c4_func_span_starts_at_identifier :
    ∀ (toks : List Token) (fname : String) (fuel i : Nat) (log : List Report)
      (node : Sp Node) (j : Nat) (log2 : List Report),
      Parser.parseFunc toks fname fuel i log = .ok node j log2 →
      ∃ tname tcur, Parser.currentTok toks (i + 1) = some tname ∧
        tname.kind = .Identifier ∧
        Parser.currentTok toks j = some tcur ∧
        node.span = tname.span.extend tcur.span := by
  intro toks fname fuel i log node j log2 h
  unfold Parser.parseFunc at h
  split at h
  · exact PRes.noConfusion h
  rename_i token hcur
  split at h
  case isFalse => exact PRes.noConfusion h
  case isTrue hident =>
  split at h
  · exact PRes.noConfusion h
  rename_i t2 hcur2
  split at h
  case isFalse => exact PRes.noConfusion h
  case isTrue hlp =>
  split at h <;> try exact PRes.noConfusion h
  rename_i args jj logA hargs
  split at h <;> try exact PRes.noConfusion h
  rename_i body ret m logB hbody
  split at h
  · exact PRes.noConfusion h
  rename_i cur hcurm
  injection h with h1 h2 h3
  exact ⟨token, cur, hcur, hident, h2 ▸ hcurm, by rw [← h1]⟩

/-- C4 witness: on the tokens of `fn f();`, `parse_func` succeeds, the
name token at index 1 is the identifier `f` at bytes 3-4, the cursor
finishes on the `;` at bytes 6-7, and the node span is their extension. -/
theorem c4_witness :
    ∃ tname tcur, Parser.currentTok tokensFnDecl (0 + 1) = some tname ∧
      tname.kind = .Identifier ∧
      Parser.currentTok tokensFnDecl 4 = some tcur ∧
      (⟨⟨3, 7⟩, .Func ⟨⟨3, 4⟩, "f"⟩ [] none [] []⟩ : Sp Node).span =
        tname.span.extend tcur.span :=
  c4_func_span_starts_at_identifier tokensFnDecl "main.onyx" 64 0 []
    ⟨⟨3, 7⟩, .Func ⟨⟨3, 4⟩, "f"⟩ [] none [] []⟩ 4 [] rfl

/-- C6: after the statement head parses, `parse_stmt` requires `;`: if the
token at the resulting cursor is `;` it is consumed and the statement node
is returned; otherwise `parse_stmt` returns (propagates) an
`UnexpectedToken` error report naming the found kind and carrying that
token's span. -/
theorem c6_statement_terminator :
    ∀ (toks : List Token) (fuel i : Nat) (log : List Report) (a : Sp Node)
      (j : Nat) (log2 : List Report) (t : Token),
      Parser.parseStmtCore toks fuel i log = .ok a j log2 →
      Parser.currentTok toks j = some t →
      (t.kind = .Semicolon →
        Parser.parseStmt toks fuel i log = .ok a (j + 1) log2) ∧
      (t.kind ≠ .Semicolon →
        Parser.parseStmt toks fuel i log =
          .err ((ReportKind.UnexpectedToken.title
            ("Expected ';', got '" ++ t.kind.debugStr ++ "'")).setSpan t.span) j log2) := by
  intro toks fuel i log a j log2 t hcore hcur
  refine ⟨fun hs => ?_, fun hn => ?_⟩
  · simp only [Parser.parseStmt, hcore, hcur]
    rw [if_pos hs]
  · simp only [Parser.parseStmt, hcore, hcur]
    rw [if_neg hn]

/-- C6 witness: the statement `x;` — the head parses the identifier, the
terminator is `;`, and `parse_stmt` consumes it and succeeds. -/
theorem c6_witness :
    Parser.parseStmt tokensStmtIdent 9 0 [] = .ok ⟨⟨0, 2⟩, .Ident "x"⟩ 2 [] :=
  (c6_statement_terminator tokensStmtIdent 9 0 [] ⟨⟨0, 2⟩, .Ident "x"⟩ 1 []
    (mkTok .Semicolon 1 2 "") rfl rfl).1 rfl

/-- C7: on a `DecimalIntLiteral` token, `parse_expr` returns a `UIntLit`
holding exactly the value the big-integer collaborator produces for the
token's text when that parse succeeds, and returns exactly one
`InvalidNumber` error report whose span equals the literal token's span
when it fails (the handler log is untouched in both cases). -/
theorem c7_decimal_literal_roundtrip :
    ∀ (toks : List Token) (fuel i : Nat) (log : List Report) (t : Token),
      Parser.currentTok toks i = some t →
      t.kind = .DecimalIntLiteral →
      (∀ v : Int, parseIBig t.text = some v →
        ∀ cur : Token, Parser.currentTok toks (i + 1) = some cur →
          Parser.parseExpr toks (fuel + 1) i log =
            .ok ⟨t.span.extend cur.span, .UIntLit v⟩ (i + 1) log) ∧
      (parseIBig t.text = none →
        Parser.parseExpr toks (fuel + 1) i log =
          .err ((ReportKind.InvalidNumber.title "Invalid integer literal").setSpan t.span)
            (i + 1) log) := by
  intro toks fuel i log t hcur hkind
  constructor
  · intro v hv cur hcur2
    simp only [Parser.parseExpr, hcur, hkind, hv, hcur2]
  · intro hv
    simp only [Parser.parseExpr, hcur, hkind, hv]

/-- C7 witness: the literal text `42` parses through the collaborator to
`42`, and `parse_expr` wraps it in a `UIntLit` spanning to the next
token. -/
theorem c7_witness :
    parseIBig "42" = some 42 ∧
    Parser.parseExpr tokensIntLit (63 + 1) 0 [] =
      .ok ⟨Span.extend ⟨0, 2⟩ ⟨2, 2⟩, .UIntLit 42⟩ 1 [] :=
  ⟨rfl,
   (c7_decimal_literal_roundtrip tokensIntLit 63 0 []
     (mkTok .DecimalIntLiteral 0 2 "42") rfl rfl).1 42 rfl (mkTok .EOF 2 2 "") rfl⟩

end Onyx
